import Mathlib

/-!
Verification of the PhishGuard background script
(`src/extension/background.js`).

The script consists of one pure predicate, `isSuspicious`, and one event
listener registered on `chrome.webNavigation.onBeforeNavigate` that runs
the predicate on the event's `url` field and, when the verdict is `true`,
requests a single desktop alert.  Both pieces are embedded below as
executable Lean functions and the spec's properties are proved about them.

A JavaScript string is modelled as a Lean `String` viewed through its
character list `String.data`; the three string operations the script uses
(`length`, `includes` with a one-character needle, `startsWith`) are given
as executable functions on that list so that concrete inputs evaluate in
the kernel.
-/

/-- JavaScript `s.length`: the number of characters of `s` (all inputs in
this development are within the basic plane, where JavaScript's UTF-16
code-unit count coincides with the character count). -/
def jsLength (s : String) : Nat :=
  s.data.length

/-- JavaScript `s.includes(c)` for a one-character needle `c`: whether the
character occurs anywhere in `s`. -/
def jsIncludes (s : String) (c : Char) : Bool :=
  s.data.contains c

/-- JavaScript `s.startsWith(p)`: whether `p` is a prefix of `s`
(case-sensitive, exact prefix match). -/
def jsStartsWith (s p : String) : Bool :=
  p.data.isPrefixOf s.data

/-- The heuristic predicate `isSuspicious` from `background.js`, lines 3–9:
four early-return checks (length over 75, contains `@`, contains `-`, does
not start with `https`), otherwise `false`. -/
def isSuspicious (url : String) : Bool :=
  if jsLength url > 75 then true
  else if jsIncludes url '@' then true
  else if jsIncludes url '-' then true
  else if !jsStartsWith url "https" then true
  else false

/-- The `details` object delivered to the `onBeforeNavigate` listener.
Besides `url`, Chrome supplies bookkeeping fields (tab, frame, process,
timestamp); the listener reads only `url`. -/
structure NavigationEvent where
  url : String
  tabId : Int
  frameId : Int
  parentFrameId : Int
  processId : Int
  timeStamp : Nat
deriving Repr, DecidableEq

/-- The argument record passed to `chrome.notifications.create`. -/
structure NotificationOptions where
  type : String
  iconUrl : String
  title : String
  message : String
deriving Repr, DecidableEq

/-- The listener body from `background.js`, lines 12–23: read `details.url`,
and if `isSuspicious` holds issue exactly one notification request with the
fixed type, icon, title and templated message; otherwise issue none.  The
returned list is the sequence of notification requests the callback makes. -/
def onBeforeNavigate (details : NavigationEvent) : List NotificationOptions :=
  let url := details.url
  if isSuspicious url then
    [{ type := "basic"
       iconUrl := "icon.png"
       title := "⚠️ PhishGuard Alert"
       message := "This site may be a phishing attempt!\n" ++ url }]
  else []

/-- Claim C1: the evaluator returns `false` iff none of the four conditions
hold (length ≤ 75, no `@`, no `-`, starts with `https`); equivalently it
equals the plain disjunction of the four conditions, so the order of the
checks is immaterial. -/
theorem isSuspicious_iff_disjunction (u : String) :
    (isSuspicious u = false ↔
      jsLength u ≤ 75 ∧ jsIncludes u '@' = false ∧ jsIncludes u '-' = false ∧
        jsStartsWith u "https" = true) ∧
    isSuspicious u =
      (decide (jsLength u > 75) || jsIncludes u '@' || jsIncludes u '-' ||
        !jsStartsWith u "https") := by
  by_cases h1 : jsLength u > 75 <;>
    cases h2 : jsIncludes u '@' <;>
    cases h3 : jsIncludes u '-' <;>
    cases h4 : jsStartsWith u "https" <;>
    simp_all [isSuspicious]

/-- Claim C2: on any delivered navigation event the listener applies
`isSuspicious` to the event's `url` field; when the verdict is `true` it
issues exactly one notification request with type `"basic"`, the fixed
title, and the fixed message template concatenated with the raw URL, and
when the verdict is `false` it issues none. -/
theorem onBeforeNavigate_spec (d : NavigationEvent) :
    (isSuspicious d.url = true →
      onBeforeNavigate d =
        [{ type := "basic"
           iconUrl := "icon.png"
           title := "⚠️ PhishGuard Alert"
           message := "This site may be a phishing attempt!\n" ++ d.url }]) ∧
    (isSuspicious d.url = false → onBeforeNavigate d = []) := by
  refine ⟨fun h => ?_, fun h => ?_⟩ <;> simp [onBeforeNavigate, h]

/-- Witness for C2: a flagged URL produces the single fixed notification,
and an unflagged one produces none. -/
theorem onBeforeNavigate_spec_witness :
    onBeforeNavigate ⟨"http://a", 1, 0, -1, 0, 0⟩ =
      [{ type := "basic"
         iconUrl := "icon.png"
         title := "⚠️ PhishGuard Alert"
         message := "This site may be a phishing attempt!\n" ++ "http://a" }] ∧
    onBeforeNavigate ⟨"https://a", 1, 0, -1, 0, 0⟩ = [] :=
  ⟨(onBeforeNavigate_spec ⟨"http://a", 1, 0, -1, 0, 0⟩).1 (by decide),
   (onBeforeNavigate_spec ⟨"https://a", 1, 0, -1, 0, 0⟩).2 (by decide)⟩

/-- Claim C3: the fourth check matches only the bare prefix `https`; any
string beginning with those five characters that also passes the other
three checks is declared not suspicious, even when it is not a well-formed
`https://` URL. -/
theorem startsWith_https_suffices (u : String)
    (h1 : jsStartsWith u "https" = true) (h2 : jsLength u ≤ 75)
    (h3 : jsIncludes u '@' = false) (h4 : jsIncludes u '-' = false) :
    isSuspicious u = false := by
  have h0 : ¬ jsLength u > 75 := Nat.not_lt.mpr h2
  simp [isSuspicious, h0, h1, h3, h4]

/-- Witness for C3: `"httpsxyz://a"` is not a well-formed https URL but the
evaluator returns `false` on it. -/
theorem startsWith_https_suffices_witness :
    isSuspicious "httpsxyz://a" = false :=
  startsWith_https_suffices "httpsxyz://a" (by decide) (by decide)
    (by decide) (by decide)

/-- Claim C4: any string not starting with the exact prefix `https` is
suspicious; in particular the empty string is, and only the
`!startsWith "https"` condition holds for it. -/
theorem not_startsWith_https_suspicious :
    (∀ u : String, jsStartsWith u "https" = false → isSuspicious u = true) ∧
    (isSuspicious "" = true ∧ jsLength "" ≤ 75 ∧
      jsIncludes "" '@' = false ∧ jsIncludes "" '-' = false ∧
      jsStartsWith "" "https" = false) := by
  refine ⟨fun u h => ?_, by decide, by decide, by decide, by decide, by decide⟩
  by_cases h1 : jsLength u > 75
  · simp [isSuspicious, h1]
  · cases h2 : jsIncludes u '@' <;> cases h3 : jsIncludes u '-' <;>
      simp [isSuspicious, h1, h2, h3, h]

/-- Witness for C4: the empty string does not start with `https` and is
flagged suspicious. -/
theorem not_startsWith_https_suspicious_witness :
    isSuspicious "" = true :=
  not_startsWith_https_suspicious.1 "" (by decide)

/-- Claim C5: any string longer than 75 characters is suspicious,
regardless of content. -/
theorem length_gt_75_suspicious (u : String) (h : jsLength u > 75) :
    isSuspicious u = true := by
  simp [isSuspicious, h]

/-- Witness for C5: a 76-character string is flagged suspicious. -/
theorem length_gt_75_suspicious_witness :
    isSuspicious (String.mk (List.replicate 76 'a')) = true :=
  length_gt_75_suspicious (String.mk (List.replicate 76 'a')) (by decide)

/-- Claim C6: any string containing `@` is suspicious, and any string
containing `-` is suspicious. -/
theorem contains_at_or_dash_suspicious :
    (∀ u : String, jsIncludes u '@' = true → isSuspicious u = true) ∧
    (∀ u : String, jsIncludes u '-' = true → isSuspicious u = true) := by
  refine ⟨fun u h => ?_, fun u h => ?_⟩
  · by_cases h1 : jsLength u > 75 <;> simp [isSuspicious, h1, h]
  · by_cases h1 : jsLength u > 75 <;> cases h2 : jsIncludes u '@' <;>
      simp [isSuspicious, h1, h2, h]

/-- Witness for C6: a URL with `@` and a URL with `-` are both flagged. -/
theorem contains_at_or_dash_suspicious_witness :
    isSuspicious "https://user@example.com" = true ∧
    isSuspicious "https://ex-ample.com" = true :=
  ⟨contains_at_or_dash_suspicious.1 "https://user@example.com" (by decide),
   contains_at_or_dash_suspicious.2 "https://ex-ample.com" (by decide)⟩

/-- Claim C7: the evaluator is total: on every string, the empty string
included, it terminates without failing and returns one of the two boolean
verdicts.  In the embedding `isSuspicious` is a total function into `Bool`,
so for every input the result is `true` or `false`. -/
theorem isSuspicious_total (u : String) :
    isSuspicious u = true ∨ isSuspicious u = false := by
  cases h : isSuspicious u
  · exact Or.inr rfl
  · exact Or.inl rfl

/-- Claim C8: the evaluator is deterministic and stateless: two calls on the
same string return the same result. -/
theorem isSuspicious_deterministic (u v : String) (h : u = v) :
    isSuspicious u = isSuspicious v := by
  rw [h]

/-- Witness for C8: two calls on `"https://example.com"` agree. -/
theorem isSuspicious_deterministic_witness :
    isSuspicious "https://example.com" = isSuspicious "https://example.com" :=
  isSuspicious_deterministic "https://example.com" "https://example.com" rfl

/-- Claim C9: the listener's outcome depends only on the event's `url`
field: two events with equal URLs produce identical notification request
sequences, whatever their other attributes. -/
theorem onBeforeNavigate_depends_only_on_url (d₁ d₂ : NavigationEvent)
    (h : d₁.url = d₂.url) :
    onBeforeNavigate d₁ = onBeforeNavigate d₂ := by
  simp [onBeforeNavigate, h]

/-- Witness for C9: two events sharing a URL but differing in every other
field produce the same notification requests. -/
theorem onBeforeNavigate_depends_only_on_url_witness :
    onBeforeNavigate ⟨"http://a", 1, 0, -1, 2, 10⟩ =
      onBeforeNavigate ⟨"http://a", 7, 3, 5, 9, 999⟩ :=
  onBeforeNavigate_depends_only_on_url
    ⟨"http://a", 1, 0, -1, 2, 10⟩ ⟨"http://a", 7, 3, 5, 9, 999⟩ rfl
